import Mathlib

/-!
Verification of the deadline-risk prediction and reminder-scheduling engine
of the SynergySphere backend.

Shallow embedding conventions:
- Instants are rationals counting days since the epoch, already normalized
  to UTC; a timedelta of h hours is the rational h/24.
- Python floats (velocity, scores) are modelled as rationals.
- The current clock reading, obtained in the source through get_utc_now,
  is passed explicitly as the parameter now.
- Database lookups that may miss (Task.query.get, User.query.get,
  Project.query.get) are modelled as Option-typed inputs.
- The notification table and the celery job queue are modelled as lists;
  a celery delay or apply_async submission appends one entry.  Celery
  assigns each submission a fresh identifier: nothing in a submission
  deduplicates against earlier ones, which the list model reflects by
  always appending.
-/

namespace Synergy

/-- Legacy status enum of models/task.py. -/
inductive TaskStatus where
  | pending
  | in_progress
  | completed
deriving DecidableEq

/-- Mirrors the .value attribute of the python enum. -/
def TaskStatus.value : TaskStatus → String
  | .pending => "pending"
  | .in_progress => "in_progress"
  | .completed => "completed"

/-- Snapshot of the Task model fields used by the engine
(models/task.py); subtasks holds the ids of the child tasks. -/
structure Task where
  id : Nat
  title : String
  owner_id : Nat
  project_id : Nat
  status : TaskStatus
  due_date : Option ℚ
  created_at : Option ℚ
  priority_score : ℚ
  parent_task_id : Option Nat
  estimated_effort : Int
  percent_complete : Int
  last_progress_update : Option ℚ
  subtasks : List Nat
deriving DecidableEq

/-- Fields of the User model used by the sweep. -/
structure User where
  id : Nat
  email : String
  notify_email : Bool
deriving DecidableEq

/-- Fields of the Notification model used by the deduplicator. -/
structure Notification where
  user_id : Nat
  message : String
  created_at : ℚ
deriving DecidableEq

/-- Fields of the Project model used by project reminders. -/
structure Project where
  id : Nat
  name : String
  deadline : Option ℚ
deriving DecidableEq

/-- DeadlineService.calculate_completion_velocity: percent complete per
elapsed day, 0 when created_at is unset, progress is non-positive, or no
time has elapsed. -/
def calculate_completion_velocity (now : ℚ) (task : Task) : ℚ :=
  match task.created_at with
  | none => 0
  | some created_at =>
      if task.percent_complete ≤ 0 then 0
      else
        let days_elapsed : ℚ := now - created_at
        if days_elapsed ≤ 0 then 0
        else (task.percent_complete : ℚ) / days_elapsed

/-- DeadlineService.predict_completion_date. -/
def predict_completion_date (now : ℚ) (task : Task) : ℚ :=
  let velocity := calculate_completion_velocity now task
  if velocity ≤ 0 ∨ task.percent_complete ≥ 100 then
    if task.percent_complete ≥ 100 then now else now + 365
  else
    let remaining_percent : ℚ := 100 - (task.percent_complete : ℚ)
    now + remaining_percent / velocity

/-- DeadlineService.is_at_risk. -/
def is_at_risk (now : ℚ) (task : Task) : Bool :=
  match task.due_date with
  | none => false
  | some due_date =>
      if task.status.value = "completed" then false
      else decide (predict_completion_date now task > due_date)

/-- DeadlineService.get_risk_level; delay in whole days is the floor of
the fractional delay, as the python timedelta days attribute. -/
def get_risk_level (now : ℚ) (task : Task) : String :=
  if is_at_risk now task = false then "low"
  else
    match task.due_date with
    | none => "low"
    | some due_date =>
        let delay_days : ℤ := ⌊predict_completion_date now task - due_date⌋
        if delay_days ≤ 1 then "medium"
        else if delay_days ≤ 3 then "high"
        else "critical"

/-- Ranking used to sort at-risk tasks, critical first
(risk_order in DeadlineService.get_tasks_at_risk). -/
def risk_order (risk_level : String) : Nat :=
  if risk_level = "critical" then 4
  else if risk_level = "high" then 3
  else if risk_level = "medium" then 2
  else if risk_level = "low" then 1
  else 0

/-- Stable insertion keeping keys descending, modelling one step of the
python list sort with a key and reverse set. -/
def insert_by_key_desc {α : Type} (key : α → Nat) (a : α) : List α → List α
  | [] => [a]
  | b :: bs => if key b ≤ key a then a :: b :: bs else b :: insert_by_key_desc key a bs

/-- Stable descending sort by key, modelling list.sort with reverse. -/
def sort_by_key_desc {α : Type} (key : α → Nat) : List α → List α
  | [] => []
  | a :: rest => insert_by_key_desc key a (sort_by_key_desc key rest)

/-- DeadlineService.get_tasks_at_risk: the non-completed tasks of the
user that carry a due date and are at risk, sorted critical first. -/
def get_tasks_at_risk (now : ℚ) (user_id : Nat) (tasks : List Task) : List Task :=
  let candidates := tasks.filter (fun t =>
    t.owner_id == user_id &&
    (t.status.value == "pending" || t.status.value == "in_progress") &&
    t.due_date.isSome)
  let at_risk_tasks := candidates.filter (fun t => is_at_risk now t)
  sort_by_key_desc (fun t => risk_order (get_risk_level now t)) at_risk_tasks

/-- The title signature the deduplication query searches for inside the
message text of earlier notifications. -/
def task_sig (title : String) : String := "Task \x27" ++ title ++ "\x27"

/-- Substring test modelling the SQL contains filter on message text. -/
def str_contains (s pat : String) : Bool := decide (pat.data <:+: s.data)

/-- The notification message built by DeadlineService.scan_and_notify for
a given risk level and task title. -/
def risk_message (risk_level title : String) : String :=
  if risk_level = "critical" then
    "🚨 CRITICAL: " ++ task_sig title ++ " is severely behind schedule and may miss its deadline!"
  else if risk_level = "high" then
    "⚠️ HIGH RISK: " ++ task_sig title ++ " is at high risk of missing its deadline."
  else
    "⚡ WARNING: " ++ task_sig title ++ " may miss its deadline based on current progress."

/-- The deduplication predicate of scan_and_notify: an existing
notification of the same user whose message contains the title signature
and which was created within the last 24 hours. -/
def notification_matches (now : ℚ) (user_id : Nat) (title : String) (n : Notification) : Bool :=
  n.user_id == user_id && str_contains n.message (task_sig title) &&
    decide (now - 1 ≤ n.created_at)

/-- One iteration of the scan_and_notify loop over an at-risk task: skip
when a recent matching notification exists, otherwise insert a new
notification row and count it.  The session query sees rows added
earlier in the same loop, as sqlalchemy autoflush does. -/
def sweep_step (now : ℚ) (user_id : Nat) (acc : List Notification × Nat) (task : Task) :
    List Notification × Nat :=
  if acc.1.any (notification_matches now user_id task.title) then acc
  else (acc.1 ++ [⟨user_id, risk_message (get_risk_level now task) task.title, now⟩], acc.2 + 1)

/-- DeadlineService.scan_and_notify restricted to its observable effect on
the notification table: returns the new table and notifications_created. -/
def scan_and_notify (now : ℚ) (user : Option User) (tasks : List Task)
    (db : List Notification) : List Notification × Nat :=
  match user with
  | none => (db, 0)
  | some u => (get_tasks_at_risk now u.id tasks).foldl (sweep_step now u.id) (db, 0)

/-- PriorityService.calculate_urgency_score; days remaining is the
timedelta days attribute, the floor of the fractional difference. -/
def calculate_urgency_score (now : ℚ) (due_date : Option ℚ) : ℚ :=
  match due_date with
  | none => 0
  | some due =>
      let time_diff := due - now
      if time_diff ≤ 0 then 10
      else
        let days_remaining : ℤ := ⌊time_diff⌋
        if days_remaining ≤ 1 then 9
        else if days_remaining ≤ 3 then 7
        else if days_remaining ≤ 7 then 5
        else if days_remaining ≤ 14 then 3
        else if days_remaining ≤ 30 then 1
        else 1/2

/-- PriorityService.calculate_effort_score. -/
def calculate_effort_score (estimated_effort : Int) : ℚ :=
  if estimated_effort ≤ 0 then 0
  else if estimated_effort ≤ 2 then 0
  else if estimated_effort ≤ 8 then -(1/2)
  else if estimated_effort ≤ 24 then -1
  else -2

/-- PriorityService.calculate_dependency_score; the python truthiness test
on parent_task_id treats both a missing id and the id 0 as false. -/
def calculate_dependency_score (task : Task) : ℚ :=
  let subtask_count := task.subtasks.length
  if 0 < subtask_count then min ((subtask_count : ℚ) * (3/2)) 5
  else if task.parent_task_id.getD 0 ≠ 0 then -(1/2)
  else 0

/-- PriorityService.calculate_status_modifier. -/
def calculate_status_modifier (status : String) : ℚ :=
  if status = "in_progress" then 2
  else if status = "pending" then 0
  else -10

/-- PriorityService.compute_priority_score. -/
def compute_priority_score (now : ℚ) (task : Task) : ℚ :=
  let urgency := calculate_urgency_score now task.due_date
  let effort := calculate_effort_score task.estimated_effort
  let dependency := calculate_dependency_score task
  let status_mod := calculate_status_modifier task.status.value
  let base := urgency + effort + dependency + status_mod
  let adjusted :=
    if task.percent_complete = 0 ∧ task.status.value = "in_progress" then base - 1 else base
  max adjusted 0

/-- DeadlineService.update_task_progress applied to one found task:
clamp, record progress when it changed, and move the status forward. -/
def apply_progress (now : ℚ) (task : Task) (percent : Int) : Task :=
  let pc := max 0 (min 100 percent)
  if task.percent_complete ≠ pc then
    let task1 := { task with percent_complete := pc, last_progress_update := some now }
    if pc ≥ 100 then { task1 with status := .completed }
    else if 0 < pc ∧ task1.status.value = "pending" then { task1 with status := .in_progress }
    else task1
  else task

/-- DeadlineService.update_task_progress: false only when the task id
resolves to nothing. -/
def update_task_progress (now : ℚ) (task : Option Task) (percent : Int) :
    Option Task × Bool :=
  match task with
  | none => (none, false)
  | some t => (some (apply_progress now t percent), true)

/-- One delayed-job submission to the celery queue: the task name, the
task or project id in its arguments, the reminder kind, and the instant
the reminder targets.  Celery draws a fresh identifier per submission, so
the queue is a plain list that grows with every submission. -/
structure Job where
  name : String
  entity_id : Nat
  kind : String
  eta : ℚ
deriving DecidableEq

/-- The reminder lead offsets, in days, chosen from the priority score in
update_task_priority_reminders (tasks/deadline_tasks.py); 1/6 day is the
4 hour offset. -/
def priority_reminder_intervals (priority_score : ℚ) : List ℚ :=
  if priority_score ≥ 8 then [7, 3, 1, 1/6]
  else if priority_score ≥ 5 then [3, 1]
  else [1]

/-- update_task_priority_reminders (tasks/deadline_tasks.py) restricted to
its observable effect on the queue: for a found, non-completed task with a
due date, one schedule_task_reminder submission per interval whose
reminder time is still in the future. -/
def update_task_priority_reminders (now : ℚ) (task : Option Task) (queue : List Job) :
    List Job :=
  match task with
  | none => queue
  | some t =>
      if t.status.value = "completed" then queue
      else
        match t.due_date with
        | none => queue
        | some due_date =>
            queue ++ (priority_reminder_intervals t.priority_score).filterMap
              (fun interval =>
                let reminder_time := due_date - interval
                if now < reminder_time then
                  some ⟨"schedule_task_reminder", t.id, "due_soon", reminder_time⟩
                else none)

/-- The batch of jobs a single update_task_priority_reminders call
appends to the queue. -/
def priority_reminder_batch (now : ℚ) (task : Option Task) : List Job :=
  match task with
  | none => []
  | some t =>
      if t.status.value = "completed" then []
      else
        match t.due_date with
        | none => []
        | some due_date =>
            (priority_reminder_intervals t.priority_score).filterMap
              (fun interval =>
                let reminder_time := due_date - interval
                if now < reminder_time then
                  some ⟨"schedule_task_reminder", t.id, "due_soon", reminder_time⟩
                else none)

/-- Result summary of DeadlineService.schedule_project_reminders: either
skipped (no project, no deadline, or deadline already passed) or
scheduled with the number of submissions made. -/
inductive ScheduleResult where
  | skipped
  | scheduled (count : Nat)
deriving DecidableEq

/-- DeadlineService.schedule_project_reminders: fixed offsets of 7, 3 and
1 days plus a 4 hour final reminder, each submitted only when its
reminder time is still in the future. -/
def schedule_project_reminders (now : ℚ) (project : Option Project) (queue : List Job) :
    List Job × ScheduleResult :=
  match project with
  | none => (queue, .skipped)
  | some p =>
      match p.deadline with
      | none => (queue, .skipped)
      | some deadline =>
          if deadline ≤ now then (queue, .skipped)
          else
            let reminder_7d := deadline - 7
            let reminder_3d := deadline - 3
            let reminder_1d := deadline - 1
            let reminder_4h := deadline - 1/6
            let step := fun (acc : List Job × Nat) (kind : String) (eta : ℚ) =>
              if now < eta then
                (acc.1 ++ [⟨"send_project_deadline_reminder", p.id, kind, eta⟩], acc.2 + 1)
              else acc
            let acc := step (queue, 0) "due_soon" reminder_7d
            let acc := step acc "due_soon" reminder_3d
            let acc := step acc "due_soon" reminder_1d
            let acc := step acc "final_reminder" reminder_4h
            (acc.1, .scheduled acc.2)

/-- DeadlineService.cancel_project_reminders: the source is an explicit
placeholder that tracks no job identifiers and revokes nothing, so the
queue is returned untouched. -/
def cancel_project_reminders (project_id : Nat) (queue : List Job) : List Job :=
  queue

/-- DeadlineService.reschedule_project_reminders: cancel then schedule. -/
def reschedule_project_reminders (now : ℚ) (project_id : Nat) (project : Option Project)
    (queue : List Job) : List Job × ScheduleResult :=
  let queue1 := cancel_project_reminders project_id queue
  schedule_project_reminders now project queue1

/-- Concrete recipient used by the witnesses. -/
def sample_user : User := ⟨1, "user at example", false⟩

/-- Task created at day 0 with half the work done, due at day 12 and
observed at day 10: velocity 5 percent per day, predicted completion at
day 20, eight whole days late. -/
def sample_at_risk_task : Task :=
  ⟨2, "Deploy", 1, 1, .pending, some 12, some 0, 0, none, 0, 50, none, []⟩

/-- A second task with the same owner and the same title but another id. -/
def sample_twin_task : Task :=
  ⟨3, "Deploy", 1, 1, .pending, some 12, some 0, 0, none, 0, 50, none, []⟩

/-- A completed task that would otherwise look badly late. -/
def sample_completed_task : Task :=
  ⟨4, "Ship", 1, 1, .completed, some 5, some 0, 0, none, 4, 40, none, []⟩

/-- A pending task due exactly at the observation instant. -/
def sample_due_now_task : Task :=
  ⟨5, "Audit", 1, 1, .pending, some 0, some (-10), 0, none, 0, 50, none, []⟩

/-- A high priority task with a due date ten days out. -/
def sample_high_priority_task : Task :=
  ⟨6, "Launch", 1, 1, .pending, some 10, some 0, 9, none, 0, 10, none, []⟩

/-- A fresh pending task with no recorded progress. -/
def sample_pending_task : Task :=
  ⟨7, "Write", 1, 1, .pending, none, some 0, 0, none, 0, 0, none, []⟩

/-- A project whose deadline is ten days out. -/
def sample_project : Project := ⟨3, "Apollo", some 10⟩

/-- A project whose deadline was moved to day 20. -/
def sample_moved_project : Project := ⟨1, "Zeus", some 20⟩

/-- A queued job computed from the old day 10 deadline of the moved
project: the one day lead offset gave it a fire time of day 9. -/
def sample_stale_job : Job := ⟨"send_project_deadline_reminder", 1, "due_soon", 9⟩

/-- A queued job for an unrelated entity, used to watch survival across a
reschedule of a project that no longer resolves. -/
def sample_surviving_job : Job := ⟨"send_project_deadline_reminder", 7, "due_soon", 5⟩

/-- The batch of jobs one schedule_project_reminders call appends for a
future deadline: the 7, 3 and 1 day offsets as due_soon and the 4 hour
offset as final_reminder, keeping only fire times still in the future. -/
def project_reminder_batch (now : ℚ) (pid : Nat) (deadline : ℚ) : List Job :=
  [((7 : ℚ), "due_soon"), (3, "due_soon"), (1, "due_soon"), (1/6, "final_reminder")].filterMap
    (fun pr =>
      if now < deadline - pr.1 then
        some ⟨"send_project_deadline_reminder", pid, pr.2, deadline - pr.1⟩
      else none)

/-- The tier a given whole-day delay maps to once a task is at risk. -/
def risk_level_of_delay (delay_days : ℤ) : String :=
  if delay_days ≤ 1 then "medium"
  else if delay_days ≤ 3 then "high"
  else "critical"

/-- Urgency as the claim words it: 0 with no due date, 10 when now is
strictly past the due date, and otherwise tiered by whole days
remaining.  Kept separate from the source translation so the two can be
compared. -/
def urgency_claimed (now : ℚ) (due_date : Option ℚ) : ℚ :=
  match due_date with
  | none => 0
  | some due =>
      if now > due then 10
      else
        let days_remaining : ℤ := ⌊due - now⌋
        if days_remaining ≤ 1 then 9
        else if days_remaining ≤ 3 then 7
        else if days_remaining ≤ 7 then 5
        else if days_remaining ≤ 14 then 3
        else if days_remaining ≤ 30 then 1
        else 1/2

/-- The full priority score as the claim words it, built on the claimed
urgency term. -/
def priority_score_claimed (now : ℚ) (task : Task) : ℚ :=
  max 0 (urgency_claimed now task.due_date + calculate_effort_score task.estimated_effort +
    calculate_dependency_score task + calculate_status_modifier task.status.value +
    (if task.percent_complete = 0 ∧ task.status.value = "in_progress" then -1 else 0))

/-- Urgency as the amended claim words it: 10 already when now has
reached the due date, which is where the source differs from the
original claim. -/
def urgency_amended (now : ℚ) (due_date : Option ℚ) : ℚ :=
  match due_date with
  | none => 0
  | some due =>
      if now ≥ due then 10
      else
        let days_remaining : ℤ := ⌊due - now⌋
        if days_remaining ≤ 1 then 9
        else if days_remaining ≤ 3 then 7
        else if days_remaining ≤ 7 then 5
        else if days_remaining ≤ 14 then 3
        else if days_remaining ≤ 30 then 1
        else 1/2

/-- The full priority score as the amended claim words it. -/
def priority_score_amended (now : ℚ) (task : Task) : ℚ :=
  max 0 (urgency_amended now task.due_date + calculate_effort_score task.estimated_effort +
    calculate_dependency_score task + calculate_status_modifier task.status.value +
    (if task.percent_complete = 0 ∧ task.status.value = "in_progress" then -1 else 0))

lemma insert_by_key_desc_perm {α : Type} (key : α → Nat) (a : α) (l : List α) :
    List.Perm (insert_by_key_desc key a l) (a :: l) := by
  induction l with
  | nil => rfl
  | cons b bs ih =>
      by_cases h : key b ≤ key a
      · simp [insert_by_key_desc, h]
      · simp only [insert_by_key_desc, if_neg h]
        exact (ih.cons b).trans (List.Perm.swap a b bs)

lemma sort_by_key_desc_perm {α : Type} (key : α → Nat) (l : List α) :
    List.Perm (sort_by_key_desc key l) l := by
  induction l with
  | nil => rfl
  | cons a rest ih =>
      exact (insert_by_key_desc_perm key a (sort_by_key_desc key rest)).trans (ih.cons a)

lemma at_risk_due_isSome {now : ℚ} {t : Task} (h : is_at_risk now t = true) :
    t.due_date.isSome = true := by
  cases hd : t.due_date with
  | none => rw [is_at_risk, hd] at h; exact absurd h (by simp)
  | some d => simp

lemma str_contains_append (p sig s : String) :
    str_contains (p ++ sig ++ s) sig = true := by
  have h : sig.data <:+: (p ++ sig ++ s).data :=
    ⟨p.data, s.data, by simp [String.data_append]⟩
  simpa [str_contains] using h

lemma risk_message_contains_sig (lvl title : String) :
    str_contains (risk_message lvl title) (task_sig title) = true := by
  rw [risk_message]
  split
  · exact str_contains_append _ _ _
  · split
    · exact str_contains_append _ _ _
    · exact str_contains_append _ _ _

lemma mem_of_mem_get_tasks_at_risk {now : ℚ} {uid : Nat} {tasks : List Task} {t : Task}
    (h : t ∈ get_tasks_at_risk now uid tasks) : t ∈ tasks := by
  rw [get_tasks_at_risk] at h
  have h1 := (sort_by_key_desc_perm (fun t => risk_order (get_risk_level now t)) _).mem_iff.mp h
  exact List.mem_of_mem_filter (List.mem_of_mem_filter h1)

lemma get_tasks_at_risk_singleton {now : ℚ} {uid : Nat} {t : Task}
    (ho : t.owner_id = uid) (hs : t.status = .pending ∨ t.status = .in_progress)
    (hr : is_at_risk now t = true) :
    get_tasks_at_risk now uid [t] = [t] := by
  have hdue := at_risk_due_isSome hr
  rw [get_tasks_at_risk]
  rcases hs with h | h <;>
    simp [ho, h, TaskStatus.value, hr, hdue, sort_by_key_desc, insert_by_key_desc]

lemma sweep_loop_skip (now : ℚ) (uid : Nat) (title : String) :
    ∀ (l : List Task) (db : List Notification) (c : Nat),
      (∀ t ∈ l, t.title = title) →
      (∃ n ∈ db, notification_matches now uid title n = true) →
      l.foldl (sweep_step now uid) (db, c) = (db, c) := by
  intro l
  induction l with
  | nil => intro db c _ _; rfl
  | cons t ts ih =>
      intro db c hall hex
      have ht : t.title = title := hall t (by simp)
      have hany : db.any (notification_matches now uid t.title) = true := by
        rw [ht]
        exact List.any_eq_true.mpr hex
      have hstep : sweep_step now uid (db, c) t = (db, c) := by
        rw [sweep_step]
        simp [hany]
      rw [List.foldl_cons, hstep]
      exact ih db c (fun x hx => hall x (by simp [hx])) hex

lemma sweep_loop_creates_one (now : ℚ) (uid : Nat) (title : String) (l : List Task)
    (db : List Notification) (hne : l ≠ []) (hall : ∀ t ∈ l, t.title = title)
    (hclean : ∀ n ∈ db, notification_matches now uid title n = false) :
    ∃ msg, str_contains msg (task_sig title) = true ∧
      l.foldl (sweep_step now uid) (db, 0) = (db ++ [⟨uid, msg, now⟩], 1) := by
  cases l with
  | nil => exact absurd rfl hne
  | cons t ts =>
      have ht : t.title = title := hall t (by simp)
      have hany : db.any (notification_matches now uid title) = false := by
        rw [List.any_eq_false]
        intro n hn
        simp [hclean n hn]
      refine ⟨risk_message (get_risk_level now t) title, risk_message_contains_sig _ _, ?_⟩
      have hstep : sweep_step now uid (db, 0) t =
          (db ++ [⟨uid, risk_message (get_risk_level now t) title, now⟩], 1) := by
        rw [sweep_step]
        simp [ht, hany]
      rw [List.foldl_cons, hstep]
      refine sweep_loop_skip now uid title ts _ 1
        (fun x hx => hall x (by simp [hx])) ?_
      refine ⟨⟨uid, risk_message (get_risk_level now t) title, now⟩, by simp, ?_⟩
      rw [notification_matches]
      have hc : str_contains (risk_message (get_risk_level now t) title) (task_sig title) = true :=
        risk_message_contains_sig _ _
      simp [hc]

lemma update_reminders_eq_append_batch (now : ℚ) (task : Option Task) (queue : List Job) :
    update_task_priority_reminders now task queue =
      queue ++ priority_reminder_batch now task := by
  cases task with
  | none => simp [update_task_priority_reminders, priority_reminder_batch]
  | some t =>
      by_cases hs : t.status.value = "completed"
      · simp [update_task_priority_reminders, priority_reminder_batch, hs]
      · cases hd : t.due_date with
        | none => simp [update_task_priority_reminders, priority_reminder_batch, hs, hd]
        | some due => simp [update_task_priority_reminders, priority_reminder_batch, hs, hd]

lemma schedule_project_some (now deadline : ℚ) (p : Project) (queue : List Job)
    (hd : p.deadline = some deadline) (hfut : ¬ deadline ≤ now) :
    schedule_project_reminders now (some p) queue =
      (queue ++ project_reminder_batch now p.id deadline,
       .scheduled (project_reminder_batch now p.id deadline).length) := by
  rw [schedule_project_reminders, hd]
  by_cases h7 : now < deadline - 7 <;> by_cases h3 : now < deadline - 3 <;>
    by_cases h1 : now < deadline - 1 <;> by_cases h4 : now < deadline - 6⁻¹ <;>
      simp [hfut, h7, h3, h1, h4, project_reminder_batch]

lemma urgency_eq_amended (now : ℚ) (due_date : Option ℚ) :
    calculate_urgency_score now due_date = urgency_amended now due_date := by
  cases due_date with
  | none => rfl
  | some due =>
      rw [calculate_urgency_score, urgency_amended]
      by_cases h : due - now ≤ 0
      · have hge : now ≥ due := by linarith
        simp [h, hge]
      · have hge : ¬ now ≥ due := by
          intro hc
          exact h (by linarith)
        simp [h, hge]

/-- C2: a work item whose status is completed is never at risk, whatever
its due date, creation date or progress, and its risk level is low. -/
theorem completed_never_at_risk (now : ℚ) (task : Task)
    (h : task.status = TaskStatus.completed) :
    is_at_risk now task = false ∧ get_risk_level now task = "low" := by
  have hrisk : is_at_risk now task = false := by
    rw [is_at_risk]
    cases task.due_date with
    | none => rfl
    | some due => simp [h, TaskStatus.value]
  exact ⟨hrisk, by rw [get_risk_level]; simp [hrisk]⟩

theorem completed_never_at_risk_witness :
    is_at_risk 10 sample_completed_task = false ∧
      get_risk_level 10 sample_completed_task = "low" :=
  completed_never_at_risk 10 sample_completed_task rfl

/-- C3: predicted completion is now when progress reached 100, the far
future sentinel of now plus 365 days when the velocity is not positive,
and otherwise now plus remaining percent over velocity days; velocity is
0 when created_at is unset, progress is non-positive or no time has
elapsed, is percent over fractional days elapsed otherwise, and is never
negative. -/
theorem predict_completion_spec (now : ℚ) (task : Task) :
    calculate_completion_velocity now task =
      (match task.created_at with
       | none => 0
       | some created_at =>
           if task.percent_complete ≤ 0 then 0
           else if now - created_at ≤ 0 then 0
           else (task.percent_complete : ℚ) / (now - created_at)) ∧
    0 ≤ calculate_completion_velocity now task ∧
    predict_completion_date now task =
      (if task.percent_complete ≥ 100 then now
       else if calculate_completion_velocity now task ≤ 0 then now + 365
       else now + (100 - (task.percent_complete : ℚ)) / calculate_completion_velocity now task) := by
  refine ⟨rfl, ?_, ?_⟩
  · rw [calculate_completion_velocity]
    cases hc : task.created_at with
    | none => exact le_refl 0
    | some created_at =>
        by_cases hp : task.percent_complete ≤ 0
        · simp [hp]
        · by_cases hd : now - created_at ≤ 0
          · simp [hp, hd]
          · simp only [hp, hd, if_false, if_neg]
            push_neg at hp hd
            positivity
  · by_cases hp : task.percent_complete ≥ 100 <;>
      by_cases hv : calculate_completion_velocity now task ≤ 0 <;>
        simp [predict_completion_date, hp, hv]

/-- C4: the risk tier is low whenever the task is not at risk, in
particular when the due date is unset; otherwise the tier is decided by
the whole-day delay of the predicted completion past the due date, at
most one day giving medium, at most three giving high and more giving
critical; and the tier ranking is monotone in the delay with
low < medium < high < critical. -/
theorem risk_tier_spec (now : ℚ) (task : Task) :
    (is_at_risk now task = false → get_risk_level now task = "low") ∧
    (task.due_date = none → get_risk_level now task = "low") ∧
    (∀ due_date : ℚ, task.due_date = some due_date → is_at_risk now task = true →
      get_risk_level now task =
        risk_level_of_delay ⌊predict_completion_date now task - due_date⌋) ∧
    (risk_order "low" < risk_order "medium" ∧ risk_order "medium" < risk_order "high" ∧
      risk_order "high" < risk_order "critical") ∧
    (∀ d₁ d₂ : ℤ, d₁ ≤ d₂ →
      risk_order (risk_level_of_delay d₁) ≤ risk_order (risk_level_of_delay d₂)) := by
  refine ⟨?_, ?_, ?_, by decide, ?_⟩
  · intro h
    rw [get_risk_level]
    simp [h]
  · intro h
    have hf : is_at_risk now task = false := by simp [is_at_risk, h]
    rw [get_risk_level]
    simp [hf]
  · intro due_date hd hr
    rw [get_risk_level]
    simp [hr, hd, risk_level_of_delay]
  · intro d₁ d₂ h
    by_cases h11 : d₁ ≤ 1 <;> by_cases h13 : d₁ ≤ 3 <;>
      by_cases h21 : d₂ ≤ 1 <;> by_cases h23 : d₂ ≤ 3 <;>
        simp [risk_level_of_delay, risk_order, h11, h13, h21, h23] <;> omega

theorem risk_tier_spec_witness :
    get_risk_level 10 sample_at_risk_task = "critical" := by
  have hr : is_at_risk 10 sample_at_risk_task = true := by
    simp [is_at_risk, predict_completion_date, calculate_completion_velocity,
      sample_at_risk_task, TaskStatus.value]
    norm_num
  have h := (risk_tier_spec 10 sample_at_risk_task).2.2.1 12 rfl hr
  rw [h]
  simp only [predict_completion_date, calculate_completion_velocity, sample_at_risk_task,
    risk_level_of_delay]
  norm_num

/-- C5 counterexample: for a pending task due exactly at the observation
instant the source puts the urgency at 10, because its overdue test is on
a non-positive time difference, while the claim, which reserves 10 for
now strictly past the due date, puts it at 9; the two scores differ. -/
theorem priority_urgency_boundary_counterexample :
    compute_priority_score 0 sample_due_now_task = 10 ∧
    priority_score_claimed 0 sample_due_now_task = 9 ∧
    compute_priority_score 0 sample_due_now_task ≠
      priority_score_claimed 0 sample_due_now_task := by
  refine ⟨?_, ?_, ?_⟩ <;>
    simp [compute_priority_score, priority_score_claimed, urgency_claimed,
      calculate_urgency_score, calculate_effort_score, calculate_dependency_score,
      calculate_status_modifier, sample_due_now_task, TaskStatus.value] <;>
      norm_num

/-- C5 as amended: the priority score equals
max(0, urgency + effort + dependency + status modifier, less one when
progress is zero while in progress), with the urgency term equal to 10
as soon as now has reached the due date, not only strictly past it; the
score is never negative. -/
theorem priority_score_amended_spec (now : ℚ) (task : Task) :
    compute_priority_score now task = priority_score_amended now task ∧
    0 ≤ compute_priority_score now task := by
  constructor
  · have hu := urgency_eq_amended now task.due_date
    by_cases h : task.percent_complete = 0 ∧ task.status.value = "in_progress" <;>
      simp [compute_priority_score, priority_score_amended, ← hu, h, max_comm] <;>
        ring_nf
  · rw [compute_priority_score]
    exact le_max_right _ _

/-- C6 counterexample: submissions carry no deterministic job key, so
running the reminder scheduling twice with identical arguments on an
empty queue leaves eight jobs instead of four; the queue after the second
call is not the queue after the first. -/
theorem schedule_twice_duplicates_counterexample :
    (update_task_priority_reminders 0 (some sample_high_priority_task)
        (update_task_priority_reminders 0 (some sample_high_priority_task) [])).length = 8 ∧
    (update_task_priority_reminders 0 (some sample_high_priority_task) []).length = 4 ∧
    update_task_priority_reminders 0 (some sample_high_priority_task)
        (update_task_priority_reminders 0 (some sample_high_priority_task) []) ≠
      update_task_priority_reminders 0 (some sample_high_priority_task) [] := by
  have h4 : (update_task_priority_reminders 0 (some sample_high_priority_task) []).length = 4 := by
    simp only [update_task_priority_reminders, priority_reminder_intervals,
      sample_high_priority_task, TaskStatus.value]
    norm_num [List.filterMap]
    simp
  have h8 : (update_task_priority_reminders 0 (some sample_high_priority_task)
      (update_task_priority_reminders 0 (some sample_high_priority_task) [])).length = 8 := by
    rw [update_reminders_eq_append_batch, update_reminders_eq_append_batch,
      List.length_append, List.length_append]
    have hb : (priority_reminder_batch 0 (some sample_high_priority_task)).length = 4 := by
      simp only [priority_reminder_batch, priority_reminder_intervals,
        sample_high_priority_task, TaskStatus.value]
      norm_num [List.filterMap]
      simp
    simp [hb]
  refine ⟨h8, h4, ?_⟩
  intro heq
  rw [heq, h4] at h8
  exact absurd h8 (by norm_num)

/-- C6 as amended: delayed-job submissions carry no job key at all, so a
second identical call does not replace the first; it appends the same
batch of jobs again and the queue grows by two batches. -/
theorem schedule_twice_appends_batch_twice (now : ℚ) (task : Option Task) (queue : List Job) :
    update_task_priority_reminders now task (update_task_priority_reminders now task queue) =
      queue ++ priority_reminder_batch now task ++ priority_reminder_batch now task ∧
    (update_task_priority_reminders now task
        (update_task_priority_reminders now task queue)).length =
      queue.length + 2 * (priority_reminder_batch now task).length := by
  rw [update_reminders_eq_append_batch, update_reminders_eq_append_batch]
  refine ⟨rfl, ?_⟩
  rw [List.length_append, List.length_append]
  omega

/-- C7 counterexample: a job computed from the old day 10 deadline, with
its day 9 fire time, is still in the queue after rescheduling the
project to its new day 20 deadline, because the cancel step revokes
nothing. -/
theorem reschedule_stale_job_counterexample :
    sample_stale_job ∈
      (reschedule_project_reminders 0 1 (some sample_moved_project) [sample_stale_job]).1 := by
  have h := schedule_project_some 0 20 sample_moved_project [sample_stale_job] rfl (by norm_num)
  rw [reschedule_project_reminders, cancel_project_reminders, h]
  simp

/-- C7 as amended: reschedule is cancel followed by schedule, and cancel
is a no-op whether or not jobs exist, revoking nothing; consequently
every job already in the queue, including jobs derived from the old
deadline, survives the reschedule. -/
theorem reschedule_cancel_spec (now : ℚ) (project_id : Nat) (project : Option Project)
    (queue : List Job) :
    reschedule_project_reminders now project_id project queue =
      schedule_project_reminders now project (cancel_project_reminders project_id queue) ∧
    cancel_project_reminders project_id queue = queue ∧
    ∀ j ∈ queue, j ∈ (reschedule_project_reminders now project_id project queue).1 := by
  refine ⟨rfl, rfl, ?_⟩
  intro j hj
  rw [reschedule_project_reminders, cancel_project_reminders]
  cases project with
  | none => simpa [schedule_project_reminders] using hj
  | some p =>
      cases hd : p.deadline with
      | none => simpa [schedule_project_reminders, hd] using hj
      | some deadline =>
          by_cases hpast : deadline ≤ now
          · simpa [schedule_project_reminders, hd, hpast] using hj
          · rw [schedule_project_some now deadline p queue hd hpast]
            simp [hj]

theorem reschedule_cancel_spec_witness :
    cancel_project_reminders 7 [sample_surviving_job] = [sample_surviving_job] ∧
    sample_surviving_job ∈
      (reschedule_project_reminders 0 7 none [sample_surviving_job]).1 := by
  have h := reschedule_cancel_spec 0 7 none [sample_surviving_job]
  exact ⟨h.2.1, h.2.2 sample_surviving_job (by simp)⟩

/-- C8: item reminders use the offsets 7d, 3d, 1d and 4h when the
priority score is at least 8, 3d and 1d when it is at least 5, and 1d
otherwise; a found non-completed task with a due date gets one submission
per offset whose fire time is still in the future; a project deadline in
the future always gets the fixed 7d, 3d, 1d due_soon offsets plus the 4h
final_reminder, each submitted only when still in the future, and the
call returns exactly the number of jobs submitted, skipping past offsets
without error. -/
theorem reminder_tiering_spec (now : ℚ) :
    (∀ ps : ℚ, (8 ≤ ps → priority_reminder_intervals ps = [7, 3, 1, 1/6]) ∧
      (5 ≤ ps → ps < 8 → priority_reminder_intervals ps = [3, 1]) ∧
      (ps < 5 → priority_reminder_intervals ps = [1])) ∧
    (∀ (task : Task) (due_date : ℚ) (queue : List Job),
      task.status.value ≠ "completed" → task.due_date = some due_date →
      update_task_priority_reminders now (some task) queue =
        queue ++ (priority_reminder_intervals task.priority_score).filterMap
          (fun interval =>
            if now < due_date - interval then
              some ⟨"schedule_task_reminder", task.id, "due_soon", due_date - interval⟩
            else none)) ∧
    (∀ (p : Project) (deadline : ℚ) (queue : List Job),
      p.deadline = some deadline → now < deadline →
      schedule_project_reminders now (some p) queue =
        (queue ++ project_reminder_batch now p.id deadline,
         ScheduleResult.scheduled (project_reminder_batch now p.id deadline).length)) := by
  refine ⟨?_, ?_, ?_⟩
  · intro ps
    refine ⟨fun h => by simp [priority_reminder_intervals, ge_iff_le, h], fun h5 h8 => ?_,
      fun h5 => ?_⟩
    · have hn8 : ¬ ps ≥ 8 := by linarith
      simp [priority_reminder_intervals, hn8, ge_iff_le, h5]
    · have hn8 : ¬ ps ≥ 8 := by linarith
      have hn5 : ¬ ps ≥ 5 := by linarith
      simp [priority_reminder_intervals, hn8, hn5]
  · intro task due_date queue hs hd
    rw [update_reminders_eq_append_batch]
    simp [priority_reminder_batch, hs, hd]
  · intro p deadline queue hd hfut
    exact schedule_project_some now deadline p queue hd (not_le.mpr hfut)

theorem reminder_tiering_spec_witness :
    schedule_project_reminders 0 (some sample_project) [] =
      ([⟨"send_project_deadline_reminder", 3, "due_soon", 3⟩,
        ⟨"send_project_deadline_reminder", 3, "due_soon", 7⟩,
        ⟨"send_project_deadline_reminder", 3, "due_soon", 9⟩,
        ⟨"send_project_deadline_reminder", 3, "final_reminder", 59/6⟩],
       ScheduleResult.scheduled 4) := by
  have h := (reminder_tiering_spec 0).2.2 sample_project 10 [] rfl (by norm_num)
  rw [h]
  norm_num [project_reminder_batch, List.filterMap, sample_project]

/-- C9: updating progress on a missing task reports false; on an
existing task the call always succeeds, the stored percentage is the
input clamped into 0 to 100, and when the clamped value differs from the
stored one, reaching 100 moves the status to completed while becoming
positive below 100 on a pending task moves it to in progress. -/
theorem update_progress_spec (now : ℚ) (task : Task) (percent : Int) :
    update_task_progress now none percent = (none, false) ∧
    (update_task_progress now (some task) percent).2 = true ∧
    (update_task_progress now (some task) percent).1 = some (apply_progress now task percent) ∧
    (apply_progress now task percent).percent_complete = max 0 (min 100 percent) ∧
    (max 0 (min 100 percent) ≠ task.percent_complete →
      ((max 0 (min 100 percent) = 100 →
          (apply_progress now task percent).status = TaskStatus.completed) ∧
       (0 < max 0 (min 100 percent) → max 0 (min 100 percent) < 100 →
          task.status = TaskStatus.pending →
          (apply_progress now task percent).status = TaskStatus.in_progress))) := by
  refine ⟨rfl, rfl, rfl, ?_, ?_⟩
  · rw [apply_progress]
    by_cases hch : task.percent_complete = max 0 (min 100 percent)
    · simp [hch]
    · by_cases h100 : max 0 (min 100 percent) ≥ 100
      · simp [hch, h100]
      · simp [hch, h100]
        split <;> rfl
  · intro hne
    have hch : ¬ task.percent_complete = max 0 (min 100 percent) := fun h => hne h.symm
    constructor
    · intro h100
      have hge : max 0 (min 100 percent) ≥ 100 := by omega
      rw [apply_progress]
      simp [hch, hge]
    · intro hpos hlt hpend
      have hn100 : ¬ max 0 (min 100 percent) ≥ 100 := by omega
      rw [apply_progress]
      simp [hch, hn100, hpend, TaskStatus.value, hpos]

theorem update_progress_spec_witness :
    update_task_progress 3 none 150 = (none, false) ∧
    (update_task_progress 3 (some sample_pending_task) 150).2 = true ∧
    (apply_progress 3 sample_pending_task 150).percent_complete = 100 ∧
    (apply_progress 3 sample_pending_task 150).status = TaskStatus.completed := by
  have h := update_progress_spec 3 sample_pending_task 150
  refine ⟨h.1, h.2.1, ?_, ?_⟩
  · have h4 := h.2.2.2.1
    rw [h4]
    decide
  · exact (h.2.2.2.2 (by decide)).1 (by decide)

/-- C1: for an unchanged at-risk task of one recipient, sweeping once
from a notification table with no recent matching record creates exactly
one notification, and sweeping again within the 24 hour cooldown window
creates none: the record made by the first sweep, whose message contains
the title signature, suppresses the second, so only one record exists
for that recipient and title signature at the end. -/
theorem sweep_dedup_cooldown (now₁ now₂ : ℚ) (user : User) (task : Task)
    (db : List Notification)
    (howner : task.owner_id = user.id)
    (hstatus : task.status = TaskStatus.pending ∨ task.status = TaskStatus.in_progress)
    (hrisk₁ : is_at_risk now₁ task = true)
    (hrisk₂ : is_at_risk now₂ task = true)
    (horder : now₁ ≤ now₂)
    (hwindow : now₂ - now₁ ≤ 1)
    (hclean : ∀ n ∈ db, notification_matches now₁ user.id task.title n = false) :
    (scan_and_notify now₁ (some user) [task] db).2 = 1 ∧
    (scan_and_notify now₂ (some user) [task]
        (scan_and_notify now₁ (some user) [task] db).1).2 = 0 ∧
    (scan_and_notify now₂ (some user) [task]
        (scan_and_notify now₁ (some user) [task] db).1).1.length = db.length + 1 := by
  have hsingle₁ := get_tasks_at_risk_singleton howner hstatus hrisk₁
  obtain ⟨msg, hmsg, hfold⟩ := sweep_loop_creates_one now₁ user.id task.title [task] db
    (by simp) (by simp) hclean
  have hrun₁ : scan_and_notify now₁ (some user) [task] db =
      (db ++ [⟨user.id, msg, now₁⟩], 1) := by
    rw [scan_and_notify, hsingle₁, hfold]
  have hmatch : notification_matches now₂ user.id task.title ⟨user.id, msg, now₁⟩ = true := by
    rw [notification_matches]
    simp [hmsg]
    linarith
  have hex : ∃ n ∈ db ++ [(⟨user.id, msg, now₁⟩ : Notification)],
      notification_matches now₂ user.id task.title n = true :=
    ⟨⟨user.id, msg, now₁⟩, by simp, hmatch⟩
  have hrun₂ : scan_and_notify now₂ (some user) [task] (db ++ [⟨user.id, msg, now₁⟩]) =
      (db ++ [⟨user.id, msg, now₁⟩], 0) := by
    rw [scan_and_notify]
    refine sweep_loop_skip now₂ user.id task.title _ _ 0 ?_ hex
    intro t ht
    have := mem_of_mem_get_tasks_at_risk ht
    simp at this
    rw [this]
  have hfst : (scan_and_notify now₁ (some user) [task] db).1 =
      db ++ [⟨user.id, msg, now₁⟩] := by rw [hrun₁]
  refine ⟨by rw [hrun₁], ?_, ?_⟩
  · rw [hfst, hrun₂]
  · rw [hfst, hrun₂]
    simp

theorem sweep_dedup_cooldown_witness :
    (scan_and_notify 10 (some sample_user) [sample_at_risk_task] []).2 = 1 ∧
    (scan_and_notify (21/2) (some sample_user) [sample_at_risk_task]
        (scan_and_notify 10 (some sample_user) [sample_at_risk_task] []).1).2 = 0 ∧
    (scan_and_notify (21/2) (some sample_user) [sample_at_risk_task]
        (scan_and_notify 10 (some sample_user) [sample_at_risk_task] []).1).1.length = 1 := by
  have hr₁ : is_at_risk 10 sample_at_risk_task = true := by
    simp [is_at_risk, predict_completion_date, calculate_completion_velocity,
      sample_at_risk_task, TaskStatus.value]
    norm_num
  have hr₂ : is_at_risk (21/2) sample_at_risk_task = true := by
    simp [is_at_risk, predict_completion_date, calculate_completion_velocity,
      sample_at_risk_task, TaskStatus.value]
    norm_num
  have h := sweep_dedup_cooldown 10 (21/2) sample_user sample_at_risk_task []
    rfl (Or.inl rfl) hr₁ hr₂ (by norm_num) (by norm_num) (by simp)
  exact ⟨h.1, h.2.1, h.2.2⟩

/-- C10: the deduplication is keyed on the title text, not on the work
item identity: when two distinct at-risk tasks of the same recipient
carry the same title, one sweep from a table with no recent matching
record creates exactly one notification between them, the record made
for the first suppressing the second. -/
theorem sweep_same_title_dedup (now : ℚ) (user : User) (t₁ t₂ : Task)
    (db : List Notification)
    (hid : t₁.id ≠ t₂.id)
    (htitle : t₂.title = t₁.title)
    (howner₁ : t₁.owner_id = user.id) (howner₂ : t₂.owner_id = user.id)
    (hstatus₁ : t₁.status = TaskStatus.pending ∨ t₁.status = TaskStatus.in_progress)
    (hstatus₂ : t₂.status = TaskStatus.pending ∨ t₂.status = TaskStatus.in_progress)
    (hrisk₁ : is_at_risk now t₁ = true) (hrisk₂ : is_at_risk now t₂ = true)
    (hclean : ∀ n ∈ db, notification_matches now user.id t₁.title n = false) :
    (scan_and_notify now (some user) [t₁, t₂] db).2 = 1 ∧
    (scan_and_notify now (some user) [t₁, t₂] db).1.length = db.length + 1 := by
  have hdue₁ := at_risk_due_isSome hrisk₁
  have hdue₂ := at_risk_due_isSome hrisk₂
  have hfilter : List.filter (fun t => is_at_risk now t)
      (List.filter (fun t =>
        t.owner_id == user.id &&
        (t.status.value == "pending" || t.status.value == "in_progress") &&
        t.due_date.isSome) [t₁, t₂]) = [t₁, t₂] := by
    rcases hstatus₁ with h₁ | h₁ <;> rcases hstatus₂ with h₂ | h₂ <;>
      simp [howner₁, howner₂, h₁, h₂, TaskStatus.value, hdue₁, hdue₂, hrisk₁, hrisk₂]
  have hperm : List.Perm (get_tasks_at_risk now user.id [t₁, t₂]) [t₁, t₂] := by
    rw [get_tasks_at_risk]
    simp only [hfilter]
    exact sort_by_key_desc_perm _ _
  have hall : ∀ t ∈ get_tasks_at_risk now user.id [t₁, t₂], t.title = t₁.title := by
    intro t ht
    have := hperm.mem_iff.mp ht
    rcases (by simpa using this) with h | h <;> rw [h]
    exact htitle
  have hne : get_tasks_at_risk now user.id [t₁, t₂] ≠ [] := by
    intro h
    have := hperm.length_eq
    rw [h] at this
    simp at this
  obtain ⟨msg, hmsg, hfold⟩ := sweep_loop_creates_one now user.id t₁.title
    (get_tasks_at_risk now user.id [t₁, t₂]) db hne hall hclean
  rw [scan_and_notify, hfold]
  simp

theorem sweep_same_title_dedup_witness :
    (scan_and_notify 10 (some sample_user) [sample_at_risk_task, sample_twin_task] []).2 = 1 ∧
    (scan_and_notify 10 (some sample_user)
        [sample_at_risk_task, sample_twin_task] []).1.length = 1 := by
  have hr₁ : is_at_risk 10 sample_at_risk_task = true := by
    simp [is_at_risk, predict_completion_date, calculate_completion_velocity,
      sample_at_risk_task, TaskStatus.value]
    norm_num
  have hr₂ : is_at_risk 10 sample_twin_task = true := by
    simp [is_at_risk, predict_completion_date, calculate_completion_velocity,
      sample_twin_task, TaskStatus.value]
    norm_num
  have h := sweep_same_title_dedup 10 sample_user sample_at_risk_task sample_twin_task []
    (by decide) rfl rfl rfl (Or.inl rfl) (Or.inl rfl) hr₁ hr₂ (by simp)
  exact ⟨h.1, h.2⟩

end Synergy
